import Mathlib

/-!
# TYS: the playlist-transfer page controller (`static/script.js`)

A shallow embedding of the browser-side controller: the two globals
(`sessionId`, `spotifyAuthorized`), the page elements the script touches, the
timers it schedules and the requests it issues are fields of an explicit
`Page` state; every function of the script is a function on that state.  The
asynchronous `transferPlaylist` is split at its `await` points into the steps
of an event-driven machine.
-/

namespace TYS

/-! ## JavaScript values -/

/-- Values the script handles: what `JSON.parse` produces, `undefined`, and
`native name` for a member of `Object.prototype` (a function or an object of
the runtime that only a lookup through the prototype chain can yield).
Numbers are the integers a double holds exactly, objects the list of their
own properties (each key once, as `JSON.parse` keeps them). -/
inductive JsValue where
  | undefined : JsValue
  | null : JsValue
  | bool (b : Bool) : JsValue
  | num (n : Int) : JsValue
  | str (s : String) : JsValue
  | arr (items : List JsValue) : JsValue
  | obj (fields : List (String × JsValue)) : JsValue
  | native (name : String) : JsValue
  deriving Inhabited

/-- What the engine decides and the script does not: the wording of the
`TypeError`s it throws, the numeric reading of a string and the exponent form
of a large number. -/
structure Runtime where
  /-- Message of the `TypeError` for reading property `prop` of `null` or
  `undefined`. -/
  nullishRead : JsValue → String → String
  /-- Message of the `TypeError` for calling what is not a function, given the
  text of the callee. -/
  notCallable : String → String
  /-- Message of the `TypeError` for an object with no primitive value. -/
  notPrimitive : String
  /-- Whether `ToNumber` of a string is greater than zero. -/
  stringGtZero : String → Bool
  /-- Text the engine gives a member of `Object.prototype`. -/
  nativeText : String → String
  /-- Text of an integer of magnitude 10^21 or more, which is printed with an
  exponent. -/
  bigNumberText : Int → String

namespace JsValue

/-- `ToBoolean`. -/
def truthy : JsValue → Bool
  | undefined => false
  | null => false
  | bool b => b
  | num n => n != 0
  | str s => s != ""
  | arr _ => true
  | obj _ => true
  | native _ => true

/-- Whether the value is `null` or `undefined`. -/
def isNullish : JsValue → Bool
  | undefined => true
  | null => true
  | _ => false

/-- Number of UTF-16 code units of a string, its `length`. -/
def utf16Length (s : String) : Nat :=
  (s.data.map fun c => if c.toNat < 65536 then 1 else 2).sum

/-- Own property of an object, `undefined` when it has none of that name. -/
def ownProp (fields : List (String × JsValue)) (name : String) : JsValue :=
  match fields.lookup name with
  | some v => v
  | none => JsValue.undefined

/-- Property read `v.name` on a value that is neither `null` nor `undefined`,
for the names the script reads (`detail`, `playlist_url`, `total_tracks`,
`found_tracks`, `not_found_tracks`, `length`, `artist`, `title`): none of these
is inherited, except `length` of arrays and strings. -/
def prop (v : JsValue) (name : String) : JsValue :=
  match v with
  | obj fields => ownProp fields name
  | arr items => if name = "length" then num items.length else undefined
  | str s => if name = "length" then num (utf16Length s) else undefined
  | _ => undefined

/-- Property read `v.name`: throws a `TypeError` on `null` and `undefined`. -/
def getProp (rt : Runtime) (v : JsValue) (name : String) : Except String JsValue :=
  if v.isNullish then .error (rt.nullishRead v name) else .ok (v.prop name)

/-- Whether an object has an own property of that name. -/
def hasOwn (fields : List (String × JsValue)) (name : String) : Bool :=
  (fields.lookup name).isSome

mutual
/-- `ToString`.  An object from JSON with an own `toString` (never callable)
has no primitive value; an array is joined with commas; an integer below
10^21 in magnitude is printed in full. -/
def toStringJs (rt : Runtime) : JsValue → Except String String
  | undefined => .ok "undefined"
  | null => .ok "null"
  | bool b => .ok (if b then "true" else "false")
  | num n =>
      if n.natAbs < 1000000000000000000000 then .ok (toString n) else .ok (rt.bigNumberText n)
  | str s => .ok s
  | arr items => joinJs rt items
  | obj fields =>
      if hasOwn fields "toString" then .error rt.notPrimitive else .ok "[object Object]"
  | native name => .ok (rt.nativeText name)
/-- `Array.prototype.join` with the default separator. -/
def joinJs (rt : Runtime) : List JsValue → Except String String
  | [] => .ok ""
  | [v] => if v.isNullish then .ok "" else toStringJs rt v
  | v :: w :: rest => do
      let head ← if v.isNullish then .ok "" else toStringJs rt v
      let tail ← joinJs rt (w :: rest)
      .ok (head ++ "," ++ tail)
end

/-- The comparison `v > 0`: `ToPrimitive` with hint number, then `ToNumber`. -/
def gtZero (rt : Runtime) : JsValue → Except String Bool
  | undefined => .ok false
  | null => .ok false
  | bool b => .ok b
  | num n => .ok (decide (0 < n))
  | str s => .ok (rt.stringGtZero s)
  | v => do
      let text ← toStringJs rt v
      .ok (rt.stringGtZero text)

end JsValue

/-! ## The page -/

/-- Severity of a notice, the `type` argument of `showMessage`. -/
inductive Severity where
  | info | success | error
  deriving DecidableEq, Repr

/-- The class name of a severity. -/
def Severity.name : Severity → String
  | .info => "info"
  | .success => "success"
  | .error => "error"

/-- `classList.add`. -/
def classAdd (classes : List String) (c : String) : List String :=
  if classes.contains c then classes else classes ++ [c]

/-- `classList.remove`. -/
def classRemove (classes : List String) (c : String) : List String :=
  classes.filter fun d => d != c

/-- Whether an element carries the class `hidden`. -/
def isHidden (classes : List String) : Bool :=
  classes.contains "hidden"

/-- What a timer does when it fires: the two callbacks the script passes to
`setTimeout`. -/
inductive TimerAction where
  | hideMessage      -- script.js line 66
  | hideProgress     -- script.js line 159
  deriving DecidableEq, Repr

/-- A pending timer. -/
structure Timer where
  due : Nat
  action : TimerAction
  deriving DecidableEq, Repr

/-- The response `fetch` resolves to: its status and what `response.json()`
settles to (the parsed body, or a rejection with the parser's message). -/
structure Response where
  status : Nat
  json : Except String JsValue

/-- `response.ok`. -/
def Response.ok (r : Response) : Bool :=
  decide (200 ≤ r.status) && decide (r.status ≤ 299)

/-- The form posted to `/transfer`. -/
structure Request where
  url : String
  method : String
  yandex_token : String
  session_id : String
  deriving DecidableEq, Repr

/-- Where a running `transferPlaylist` is suspended. -/
inductive Phase where
  | awaitFetch                        -- line 125
  | awaitErrorBody (r : Response)     -- line 131
  | awaitBody (r : Response)          -- line 137

/-- The state the script reads and writes.  A field set from a value of the
response or of a lookup (`messageText`, the link, the counters) records the
value assigned; classes are the element's class list; `requests` are the
`fetch` calls issued so far and `pending` the suspended runs of
`transferPlaylist`, each under the index of its request. -/
structure Page where
  -- globals, lines 2-3
  sessionId : Option String
  spotifyAuthorized : Bool
  -- window.location
  pathname : String
  search : List (String × String)
  -- the addresses passed to window.history.replaceState
  replaced : List String
  -- #spotify-status
  statusText : String
  statusClasses : List String
  -- #message
  messageText : JsValue
  messageClasses : List String
  -- #yandex-token
  tokenValue : String
  tokenFocused : Bool
  -- #transfer-btn
  btnDisabled : Bool
  btnText : String
  -- #progress-container, #progress-fill, #progress-text
  progressClasses : List String
  progressWidth : String
  progressText : String
  -- #results and its parts
  resultsClasses : List String
  linkHref : JsValue
  linkText : JsValue
  totalTracks : JsValue
  foundTracks : JsValue
  notFoundCount : JsValue
  notFoundClasses : List String
  notFoundList : List String
  scrolls : Nat
  -- the event loop
  now : Nat
  timers : List Timer
  requests : List Request
  pending : List (Nat × Phase)
  console : List String

/-- `setTimeout`: the timer is queued behind those due no later. -/
def insertTimer (t : Timer) : List Timer → List Timer
  | [] => [t]
  | u :: rest => if u.due ≤ t.due then u :: insertTimer t rest else t :: u :: rest

/-- `setTimeout(action, delay)`. -/
def setTimeout (action : TimerAction) (delay : Nat) (p : Page) : Page :=
  { p with timers := insertTimer ⟨p.now + delay, action⟩ p.timers }

/-- `showSpotifyStatus`, lines 41-52. -/
def showSpotifyStatus (success : Bool) (p : Page) : Page :=
  let p := { p with statusClasses := classRemove p.statusClasses "hidden" }
  if success then
    { p with statusText := "✅ Авторизован в Spotify", statusClasses := ["status", "success"] }
  else
    { p with statusText := "❌ Ошибка авторизации", statusClasses := ["status", "error"] }

/-- `showMessage`, lines 57-69.  Its callers pass a string or the result of
`getErrorMessage`, which the `textContent` setter converts without throwing. -/
def showMessage (text : JsValue) (type : Severity) (p : Page) : Page :=
  let p := { p with messageText := text }
  let p := { p with messageClasses := ["message", type.name] }
  let p := { p with messageClasses := classRemove p.messageClasses "hidden" }
  if type ≠ Severity.error then
    setTimeout TimerAction.hideMessage 5000 p
  else
    p

/-- The own properties of the table `errors`, lines 75-81. -/
def errors : List (String × JsValue) :=
  [("spotify_auth_failed", .str "Ошибка авторизации в Spotify. Попробуйте снова."),
   ("no_code", .str "Не получен код авторизации от Spotify."),
   ("token_exchange_failed", .str "Ошибка обмена токенов Spotify."),
   ("no_access_token", .str "Не получен access token от Spotify."),
   ("callback_error", .str "Ошибка при обработке callback от Spotify.")]

/-- Names every object literal inherits from `Object.prototype`. -/
def objectPrototypeNames : List String :=
  ["constructor", "hasOwnProperty", "isPrototypeOf", "propertyIsEnumerable",
   "toLocaleString", "toString", "valueOf", "__proto__", "__defineGetter__",
   "__defineSetter__", "__lookupGetter__", "__lookupSetter__"]

/-- The read `errors[errorCode]` on the object literal: an own property, else
the member of `Object.prototype` of that name, else `undefined`. -/
def errorsLookup (errorCode : String) : JsValue :=
  match errors.lookup errorCode with
  | some v => v
  | none => if objectPrototypeNames.contains errorCode then .native errorCode else .undefined

/-- `getErrorMessage`, lines 74-84. -/
def getErrorMessage (errorCode : String) : JsValue :=
  let found := errorsLookup errorCode
  if found.truthy then found else .str "Произошла неизвестная ошибка."

/-- `updateProgress`, lines 167-173. -/
def updateProgress (percent : Nat) (text : String) (p : Page) : Page :=
  { p with progressWidth := toString percent ++ "%", progressText := text }

/-- `URLSearchParams.get`: the first value of that name, `null` when absent. -/
def urlParamsGet (search : List (String × String)) (name : String) : Option String :=
  search.lookup name

/-- Truthiness of what `URLSearchParams.get` returns. -/
def paramTruthy : Option String → Bool
  | none => false
  | some v => v != ""

/-- The `DOMContentLoaded` handler, lines 6-29. -/
def onLoad (p : Page) : Page :=
  let sessionIdParam := urlParamsGet p.search "session_id"
  let p :=
    if paramTruthy sessionIdParam then
      let p := { p with sessionId := sessionIdParam }
      let p := { p with spotifyAuthorized := true }
      let p := showSpotifyStatus true p
      showMessage (.str "Авторизация в Spotify успешна!") .success p
    else p
  let error := urlParamsGet p.search "error"
  let p :=
    match error with
    | some e => if paramTruthy (some e) then showMessage (getErrorMessage e) .error p else p
    | none => p
  if paramTruthy sessionIdParam || paramTruthy error then
    { p with search := [], replaced := p.replaced ++ [p.pathname] }
  else
    p

/-! ## Rendering the result -/

/-- The text of one entry, the template of line 202: artist, then title, each
read from the track and turned into a string. -/
def trackText (rt : Runtime) (track : JsValue) : Except String String :=
  match JsValue.getProp rt track "artist" with
  | .error e => .error e
  | .ok artist =>
    match JsValue.toStringJs rt artist with
    | .error e => .error e
    | .ok a =>
      match JsValue.getProp rt track "title" with
      | .error e => .error e
      | .ok title =>
        match JsValue.toStringJs rt title with
        | .error e => .error e
        | .ok t => .ok (a ++ " - " ++ t)

/-- The `forEach` of lines 200-204 over the tracks: entries are appended one
by one, and an exception leaves those appended before it. -/
def appendTracks (rt : Runtime) : List JsValue → Page → Page × Option String
  | [], p => (p, none)
  | track :: rest, p =>
    match trackText rt track with
    | .error e => (p, some e)
    | .ok text => appendTracks rt rest { p with notFoundList := p.notFoundList ++ [text] }

/-- The conversion a setter of the page (`href`, `textContent`) applies to the
value assigned before it stores it: the message of the exception it throws,
if any.  `textContent` takes `null` and `undefined` for the empty text and
`href` for their names; neither throws. -/
def setterThrows (rt : Runtime) (v : JsValue) : Option String :=
  match JsValue.toStringJs rt v with
  | .error e => some e
  | .ok _ => none

/-- `showResults`, lines 178-211: the page it leaves and the message of the
exception it throws, if any.  An assignment whose setter throws stores
nothing; line 185 assigns the value line 184 has converted. -/
def showResults (rt : Runtime) (result : JsValue) (p : Page) : Page × Option String :=
  let p := { p with resultsClasses := classRemove p.resultsClasses "hidden" }
  match JsValue.getProp rt result "playlist_url" with
  | .error e => (p, some e)
  | .ok url =>
    match setterThrows rt url with
    | some e => (p, some e)
    | none =>
      let p := { p with linkHref := url }
      let p := { p with linkText := url }
      match setterThrows rt (result.prop "total_tracks") with
      | some e => (p, some e)
      | none =>
        let p := { p with totalTracks := result.prop "total_tracks" }
        match setterThrows rt (result.prop "found_tracks") with
        | some e => (p, some e)
        | none =>
          let p := { p with foundTracks := result.prop "found_tracks" }
          let tracks := result.prop "not_found_tracks"
          match JsValue.getProp rt tracks "length" with
          | .error e => (p, some e)
          | .ok len =>
            match setterThrows rt len with
            | some e => (p, some e)
            | none =>
              let p := { p with notFoundCount := len }
              match (if tracks.truthy then JsValue.gtZero rt len else .ok false) with
              | .error e => (p, some e)
              | .ok true =>
                let p := { p with notFoundClasses := classRemove p.notFoundClasses "hidden" }
                let p := { p with notFoundList := [] }
                match tracks with
                | .arr items =>
                  match appendTracks rt items p with
                  | (p, some e) => (p, some e)
                  | (p, none) => ({ p with scrolls := p.scrolls + 1 }, none)
                | _ => (p, some (rt.notCallable "result.not_found_tracks.forEach"))
              | .ok false =>
                let p := { p with notFoundClasses := classAdd p.notFoundClasses "hidden" }
                ({ p with scrolls := p.scrolls + 1 }, none)

/-! ## The transfer -/

/-- Characters `String.prototype.trim` strips: white space and line
terminators. -/
def isJsWhiteSpace (c : Char) : Bool :=
  let n := c.toNat
  n == 9 || n == 10 || n == 11 || n == 12 || n == 13 || n == 32 || n == 160 ||
  n == 5760 || (decide (8192 ≤ n) && decide (n ≤ 8202)) || n == 8232 || n == 8233 ||
  n == 8239 || n == 8287 || n == 12288 || n == 65279

/-- `String.prototype.trim` on the characters of a string. -/
def trimChars (cs : List Char) : List Char :=
  ((cs.dropWhile isJsWhiteSpace).reverse.dropWhile isJsWhiteSpace).reverse

/-- `String.prototype.trim`. -/
def jsTrim (s : String) : String :=
  String.mk (trimChars s.data)

/-- Truthiness of the global `sessionId`: `null` or a string. -/
def sessionTruthy : Option String → Bool
  | none => false
  | some v => v != ""

/-- The `finally` block, lines 152-161. -/
def finallyBlock (p : Page) : Page :=
  let p := { p with btnDisabled := false }
  let p := { p with btnText := "Перенести плейлист" }
  setTimeout TimerAction.hideProgress 2000 p

/-- The `catch` block, lines 148-151, followed by `finally`; `message` is
`error.message`. -/
def catchBlock (message : String) (p : Page) : Page :=
  let p := { p with console := p.console ++ ["Transfer error: " ++ message] }
  let p := showMessage (.str ("Ошибка при переносе: " ++ message)) .error p
  let p := updateProgress 0 "Произошла ошибка" p
  finallyBlock p

/-- `transferPlaylist` from its call to the `await` of line 125: the guards,
and when they pass the request is issued and the run is left suspended. -/
def transferPlaylist (p : Page) : Page :=
  if !p.spotifyAuthorized || !sessionTruthy p.sessionId then
    showMessage (.str "Сначала необходимо авторизоваться в Spotify") .error p
  else
    let yandexToken := jsTrim p.tokenValue
    if yandexToken == "" then
      let p := showMessage (.str "Пожалуйста, вставьте токен Яндекс Музыки") .error p
      { p with tokenFocused := true }
    else
      let p := { p with btnDisabled := true }
      let p := { p with btnText := "Обработка..." }
      let p := { p with progressClasses := classRemove p.progressClasses "hidden" }
      let p := updateProgress 0 "Начинаем перенос плейлиста..." p
      let p := { p with resultsClasses := classAdd p.resultsClasses "hidden" }
      let p := updateProgress 10 "Получение треков из Яндекс Музыки..." p
      let request : Request := ⟨"/transfer", "POST", yandexToken, p.sessionId.getD ""⟩
      { p with
        pending := p.pending ++ [(p.requests.length, Phase.awaitFetch)]
        requests := p.requests ++ [request] }

/-- Takes a run off the list of suspended runs. -/
def dropRun (id : Nat) (p : Page) : Page :=
  { p with pending := p.pending.filter fun e => e.1 != id }

/-- Moves a suspended run to its next `await`. -/
def setPhase (id : Nat) (ph : Phase) (p : Page) : Page :=
  { p with pending := p.pending.map fun e => if e.1 == id then (id, ph) else e }

/-- The argument of `new Error` at line 132 and its conversion to the
message: `errorData.detail` when truthy, else the status text. -/
def errorMessageOf (rt : Runtime) (r : Response) : Except String String :=
  let errorData :=
    match r.json with
    | .ok v => v
    | .error _ => JsValue.obj [("detail", .str "Неизвестная ошибка")]
  match JsValue.getProp rt errorData "detail" with
  | .error e => .error e
  | .ok detail =>
    if detail.truthy then JsValue.toStringJs rt detail
    else .ok ("Ошибка " ++ toString r.status)

/-- What follows the `await` of line 125 once `fetch` settles: a rejection
goes to `catch`; a response is checked for `ok` and its body awaited. -/
def afterFetch (id : Nat) (outcome : Except String Response) (p : Page) : Page :=
  match outcome with
  | .error message => catchBlock message (dropRun id p)
  | .ok r =>
    if !r.ok then
      setPhase id (Phase.awaitErrorBody r) p
    else
      let p := updateProgress 50 "Поиск треков в Spotify..." p
      setPhase id (Phase.awaitBody r) p

/-- What follows the `await` of line 131: the error is built and thrown;
whatever is thrown reaches `catch`. -/
def afterErrorBody (rt : Runtime) (id : Nat) (r : Response) (p : Page) : Page :=
  match errorMessageOf rt r with
  | .error e => catchBlock e (dropRun id p)
  | .ok message => catchBlock message (dropRun id p)

/-- What follows the `await` of line 137, lines 139-146 and the blocks after
them. -/
def afterBody (rt : Runtime) (id : Nat) (r : Response) (p : Page) : Page :=
  let p := dropRun id p
  match r.json with
  | .error message => catchBlock message p
  | .ok result =>
    let p := updateProgress 90 "Добавление треков в плейлист..." p
    match showResults rt result p with
    | (p, some message) => catchBlock message p
    | (p, none) =>
      let p := updateProgress 100 "Готово!" p
      let p := showMessage (.str "Плейлист успешно перенесён!") .success p
      finallyBlock p

/-! ## The event loop -/

/-- The callbacks of the two timers. -/
def fire (action : TimerAction) (p : Page) : Page :=
  match action with
  | .hideMessage => { p with messageClasses := classAdd p.messageClasses "hidden" }
  | .hideProgress => { p with progressClasses := classAdd p.progressClasses "hidden" }

/-- Runs the callbacks of the timers that are due, in the order they are
queued. -/
def fireDue (p : Page) : Page :=
  let due := p.timers.filter fun t => decide (t.due ≤ p.now)
  let p := { p with timers := p.timers.filter fun t => !decide (t.due ≤ p.now) }
  due.foldl (fun q t => fire t.action q) p

/-- What can happen to the page after it has loaded. -/
inductive Event where
  /-- A call of `transferPlaylist()`. -/
  | invoke
  /-- The `fetch` of run `id` settles: rejected with a message, or resolved. -/
  | fetchSettled (id : Nat) (outcome : Except String Response)
  /-- The `response.json()` run `id` awaits settles. -/
  | bodySettled (id : Nat)
  /-- Time passes; the timers due by then fire. -/
  | elapse (ms : Nat)
  /-- The user changes the credential field. -/
  | typeToken (value : String)

/-- One step of the page. -/
def step (rt : Runtime) (p : Page) : Event → Page
  | .invoke => transferPlaylist p
  | .fetchSettled id outcome =>
    match p.pending.lookup id with
    | some Phase.awaitFetch => afterFetch id outcome p
    | _ => p
  | .bodySettled id =>
    match p.pending.lookup id with
    | some (Phase.awaitErrorBody r) => afterErrorBody rt id r p
    | some (Phase.awaitBody r) => afterBody rt id r p
    | _ => p
  | .elapse ms => fireDue { p with now := p.now + ms }
  | .typeToken value => { p with tokenValue := value }

/-- A run of the page: the events in order. -/
def run (rt : Runtime) (p : Page) (events : List Event) : Page :=
  events.foldl (step rt) p

/-- One whole transfer with nothing in between: the call, then the
settlement of its `fetch` and of the body it awaits. -/
def transferWith (rt : Runtime) (outcome : Except String Response) (p : Page) : Page :=
  let id := p.requests.length
  run rt p [.invoke, .fetchSettled id outcome, .bodySettled id]

/-! ## Sample pages and responses -/

/-- A page as it is before `DOMContentLoaded`: the globals of lines 2-3, the
panels hidden, nothing pending. -/
def blank : Page where
  sessionId := none
  spotifyAuthorized := false
  pathname := "/"
  search := []
  replaced := []
  statusText := ""
  statusClasses := ["status", "hidden"]
  messageText := .str ""
  messageClasses := ["message", "hidden"]
  tokenValue := ""
  tokenFocused := false
  btnDisabled := false
  btnText := "Перенести плейлист"
  progressClasses := ["progress-container", "hidden"]
  progressWidth := "0%"
  progressText := ""
  resultsClasses := ["results", "hidden"]
  linkHref := .str ""
  linkText := .str ""
  totalTracks := .str "0"
  foundTracks := .str "0"
  notFoundCount := .str "0"
  notFoundClasses := ["not-found", "hidden"]
  notFoundList := []
  scrolls := 0
  now := 0
  timers := []
  requests := []
  pending := []
  console := []

/-- Value of a character as a digit of the base, if it is one. -/
def digitValue (base : Nat) (c : Char) : Option Nat :=
  let n := c.toNat
  let v : Option Nat :=
    if 48 ≤ n ∧ n ≤ 57 then some (n - 48)
    else if 97 ≤ n ∧ n ≤ 102 then some (n - 87)
    else if 65 ≤ n ∧ n ≤ 70 then some (n - 55)
    else none
  match v with
  | some d => if d < base then some d else none
  | none => none

/-- The number a non-empty run of digits of the base writes. -/
def digitsValue (base : Nat) (cs : List Char) : Option Nat :=
  if cs.isEmpty then none
  else
    cs.foldl
      (fun acc c =>
        match acc, digitValue base c with
        | some a, some d => some (a * base + d)
        | _, _ => none)
      (some 0)

/-- An unsigned decimal literal (digits, an optional fraction, an optional
exponent) as its digits `n` and a power of ten `e`: it writes `n * 10 ^ e`. -/
def decimalParts (cs : List Char) : Option (Nat × Int) :=
  let mantissa := cs.takeWhile fun c => c != 'e' && c != 'E'
  let exponent : Option Int :=
    match cs.dropWhile fun c => c != 'e' && c != 'E' with
    | [] => some 0
    | _ :: '+' :: ds => (digitsValue 10 ds).map Int.ofNat
    | _ :: '-' :: ds => (digitsValue 10 ds).map fun n => - Int.ofNat n
    | _ :: ds => (digitsValue 10 ds).map Int.ofNat
  let whole := mantissa.takeWhile fun c => c != '.'
  let digits : Option (Nat × Nat) :=
    match mantissa.dropWhile fun c => c != '.' with
    | [] => (digitsValue 10 whole).map fun n => (n, 0)
    | _ :: fraction =>
      if whole.isEmpty then (digitsValue 10 fraction).map fun n => (n, fraction.length)
      else if fraction.isEmpty then (digitsValue 10 whole).map fun n => (n, 0)
      else
        match digitsValue 10 whole, digitsValue 10 fraction with
        | some a, some b => some (a * 10 ^ fraction.length + b, fraction.length)
        | _, _ => none
  match digits, exponent with
  | some (n, k), some e => some (n, e - Int.ofNat k)
  | _, _ => none

/-- Whether `n * 10 ^ e` rounds to a double above zero: it does unless it is
at most half the least positive double, `2 ^ (-1075)`. -/
def roundsAboveZero (n : Nat) (e : Int) : Bool :=
  if 0 ≤ e then decide (0 < n) else decide (10 ^ e.natAbs < n * 2 ^ 1075)

/-- Whether an unsigned numeric literal is above zero. -/
def unsignedGtZero (cs : List Char) : Bool :=
  if cs = "Infinity".data then true
  else
    match decimalParts cs with
    | some (n, e) => roundsAboveZero n e
    | none => false

/-- Whether `ToNumber` of a string is above zero: white space around the
literal is dropped; hexadecimal, octal and binary literals take no sign; what
is no literal is `NaN`. -/
def sampleStringGtZero (s : String) : Bool :=
  match trimChars s.data with
  | [] => false
  | '0' :: 'x' :: ds | '0' :: 'X' :: ds =>
    match digitsValue 16 ds with
    | some n => decide (0 < n)
    | none => false
  | '0' :: 'o' :: ds | '0' :: 'O' :: ds =>
    match digitsValue 8 ds with
    | some n => decide (0 < n)
    | none => false
  | '0' :: 'b' :: ds | '0' :: 'B' :: ds =>
    match digitsValue 2 ds with
    | some n => decide (0 < n)
    | none => false
  | '-' :: _ => false
  | '+' :: ds => unsignedGtZero ds
  | ds => unsignedGtZero ds

/-- The double nearest a natural number below `2 ^ 1024`, ties to even. -/
def nearestDouble (n : Nat) : Nat :=
  let bits := Nat.log2 n + 1
  if bits ≤ 53 then n
  else
    let unit := 2 ^ (bits - 53)
    let q := n / unit
    let r := n % unit
    let up := decide (unit < 2 * r) || (decide (unit = 2 * r) && decide (q % 2 = 1))
    (if up then q + 1 else q) * unit

/-- Number of decimal digits of a natural number. -/
def decimalLength (n : Nat) : Nat :=
  (Nat.toDigits 10 n).length

/-- The numbers of `k` significant digits next to the double `x` that read
back as `x`, nearest first. -/
def candidates (x k : Nat) : List Nat :=
  let unit := 10 ^ (decimalLength x - k)
  let low := x / unit * unit
  let high := low + unit
  let ordered :=
    if x - low < high - x then [low, high]
    else if high - x < x - low then [high, low]
    else if (x / unit) % 2 = 0 then [low, high]
    else [high, low]
  ordered.filter fun v => nearestDouble v == x

/-- The number of fewest significant digits that reads back as the double
`x`, the nearest one when there are several. -/
def shortest (x : Nat) : Nat :=
  match ((List.range 17).map fun k => candidates x (k + 1)).flatten with
  | v :: _ => v
  | [] => x

/-- Drops the zeros a list of digits ends in. -/
def dropEndZeros (cs : List Char) : List Char :=
  (cs.reverse.dropWhile fun c => c == '0').reverse

/-- The exponent form of a positive number: its first digit, the further
digits up to the last that is not zero after a point, and the exponent. -/
def exponentForm (v : Nat) : String :=
  let digits := Nat.toDigits 10 v
  let exponent := toString (digits.length - 1)
  match dropEndZeros digits with
  | [] => "0"
  | [d] => String.mk [d] ++ "e+" ++ exponent
  | d :: rest => String.mk (d :: '.' :: rest) ++ "e+" ++ exponent

/-- `Number::toString` of an integer of magnitude 10^21 or more. -/
def sampleBigNumberText (n : Int) : String :=
  (if n < 0 then "-" else "") ++ exponentForm (shortest (nearestDouble n.natAbs))

/-- The text of a member of `Object.prototype`: the source text of a built-in
function, and for `__proto__` that of the prototype object. -/
def sampleNativeText (name : String) : String :=
  if name = "__proto__" then "[object Object]"
  else if name = "constructor" then "function Object() \x7b [native code] \x7d"
  else "function " ++ name ++ "() \x7b [native code] \x7d"

/-- A runtime for the examples, with the wording of V8. -/
def sampleRuntime : Runtime where
  nullishRead := fun v name =>
    "Cannot read properties of " ++ (if v matches JsValue.null then "null" else "undefined") ++
      " (reading \x27" ++ name ++ "\x27)"
  notCallable := fun callee => callee ++ " is not a function"
  notPrimitive := "Cannot convert object to primitive value"
  stringGtZero := sampleStringGtZero
  nativeText := sampleNativeText
  bigNumberText := sampleBigNumberText

/-- An authorized page with a credential typed in. -/
def ready : Page :=
  { blank with sessionId := some "abc", spotifyAuthorized := true, tokenValue := " token " }

/-- An authorized page whose credential field holds white space only. -/
def readyNoToken : Page :=
  { blank with sessionId := some "abc", spotifyAuthorized := true, tokenValue := " \t " }

/-- A page loaded with `?session_id=` (the parameter present, its value
empty). -/
def emptySessionPage : Page :=
  { blank with search := [("session_id", "")] }

/-- A page loaded with `?session_id=&session_id=abc`: the parameter twice, its
first value empty. -/
def shadowedSessionPage : Page :=
  { blank with search := [("session_id", ""), ("session_id", "abc")] }

/-- A page loaded with `?session_id=abc`. -/
def sessionPage : Page :=
  { blank with search := [("session_id", "abc")] }

/-- A page loaded with `?session_id=a&error=no_code`. -/
def bothParamsPage : Page :=
  { blank with search := [("session_id", "a"), ("error", "no_code")] }

/-- A track of the wire contract. -/
structure Track where
  artist : String
  title : String

/-- The result of the wire contract. -/
structure TransferResult where
  playlist_url : String
  total_tracks : Int
  found_tracks : Int
  not_found_tracks : List Track

/-- The entry the page lists for a track. -/
def Track.entry (t : Track) : String :=
  t.artist ++ " - " ++ t.title

/-- A parsed value that carries the track: an object whose `artist` and `title`
are its strings (other keys, and any order, allowed). -/
def IsTrack (v : JsValue) (t : Track) : Prop :=
  v.isNullish = false ∧ v.prop "artist" = .str t.artist ∧ v.prop "title" = .str t.title

/-- A parsed body that is the transfer result: its four fields hold the
values of the contract. -/
def IsTransferResult (body : JsValue) (res : TransferResult) : Prop :=
  body.isNullish = false ∧
  body.prop "playlist_url" = .str res.playlist_url ∧
  body.prop "total_tracks" = .num res.total_tracks ∧
  body.prop "found_tracks" = .num res.found_tracks ∧
  ∃ items, body.prop "not_found_tracks" = .arr items ∧
    List.Forall₂ IsTrack items res.not_found_tracks

/-- The body of the example of the specification. -/
def sampleBody : JsValue :=
  .obj [("playlist_url", .str "u"), ("total_tracks", .num 10), ("found_tracks", .num 8),
    ("not_found_tracks", .arr [.obj [("artist", .str "A"), ("title", .str "T")]])]

/-- The result `sampleBody` carries. -/
def sampleResult : TransferResult :=
  ⟨"u", 10, 8, [⟨"A", "T"⟩]⟩

/-- A body without `not_found_tracks` whose `playlist_url` is an object with
an own `toString`, which has no primitive value. -/
def bodyBadLink : JsValue :=
  .obj [("playlist_url", .obj [("toString", .num 1)]), ("total_tracks", .num 10),
    ("found_tracks", .num 8)]

/-- A body without `not_found_tracks`. -/
def bodyNoTracks : JsValue :=
  .obj [("playlist_url", .str "u"), ("total_tracks", .num 10), ("found_tracks", .num 8)]

/-- Whether an event is a call of `transferPlaylist`. -/
def Event.isInvoke : Event → Bool
  | .invoke => true
  | _ => false

/-- Whether every call of `transferPlaylist` in the run is made while the
submit control is enabled, as a click on the control is. -/
def callsEnabled (rt : Runtime) : Page → List Event → Bool
  | _, [] => true
  | p, e :: rest => (!e.isInvoke || !p.btnDisabled) && callsEnabled rt (step rt p e) rest

/-- What holds of a page `p` reached from the page `p0`: the submit control is
disabled exactly when a run is suspended, at most one run is, the requests
have only grown, a suspended run has issued its request, and once a request
was issued and none is pending the label is the restored one. -/
structure Sound (p0 p : Page) : Prop where
  flag : p.btnDisabled = true ↔ p.pending ≠ []
  single : p.pending.length ≤ 1
  grown : p0.requests.length ≤ p.requests.length
  busy : p.pending ≠ [] → p0.requests.length < p.requests.length
  label : p.pending = [] → p0.requests.length < p.requests.length →
    p.btnText = "Перенести плейлист"

/-- Two calls in a row, then the first request fails on the network. -/
def doubleCall : List Event :=
  [.invoke, .invoke, .fetchSettled 0 (.error "Failed to fetch")]

/-! ## Classes and trimming -/

theorem isHidden_classAdd (cs : List String) : isHidden (classAdd cs "hidden") = true := by
  unfold isHidden classAdd
  by_cases h : cs.contains "hidden" = true
  · rw [if_pos h]
    exact h
  · rw [if_neg h]
    simp

theorem isHidden_classRemove (cs : List String) : isHidden (classRemove cs "hidden") = false := by
  unfold isHidden classRemove
  simp

theorem trimChars_whiteSpace (cs : List Char) (h : ∀ c ∈ cs, isJsWhiteSpace c = true) :
    trimChars cs = [] := by
  have h1 : cs.dropWhile isJsWhiteSpace = [] := by
    rw [List.dropWhile_eq_nil_iff]
    exact h
  simp [trimChars, h1]

theorem jsTrim_whiteSpace (s : String) (h : ∀ c ∈ s.data, isJsWhiteSpace c = true) :
    jsTrim s = "" := by
  unfold jsTrim
  rw [trimChars_whiteSpace s.data h]

/-! ## The guards of `transferPlaylist` -/

/-- C1: when `spotifyAuthorized` is false or `sessionId` is null or empty,
whatever the credential field holds, `transferPlaylist` only sets the notice
to the error 'Сначала необходимо авторизоваться в Spotify': no request is
issued, no run is left pending, no timer is scheduled, and the submit
control, the progress indicator and the result view are as they were. -/
theorem transferPlaylist_unauthorized (p : Page)
    (h : p.spotifyAuthorized = false ∨ p.sessionId = none ∨ p.sessionId = some "") :
    transferPlaylist p =
        { p with
          messageText := .str "Сначала необходимо авторизоваться в Spotify"
          messageClasses := ["message", "error"] } ∧
      (transferPlaylist p).requests = p.requests ∧
      (transferPlaylist p).pending = p.pending ∧
      (transferPlaylist p).timers = p.timers ∧
      (transferPlaylist p).messageText = .str "Сначала необходимо авторизоваться в Spotify" ∧
      (transferPlaylist p).messageClasses = ["message", Severity.error.name] ∧
      isHidden (transferPlaylist p).messageClasses = false ∧
      (transferPlaylist p).btnDisabled = p.btnDisabled ∧
      (transferPlaylist p).btnText = p.btnText ∧
      (transferPlaylist p).progressClasses = p.progressClasses ∧
      (transferPlaylist p).progressWidth = p.progressWidth ∧
      (transferPlaylist p).progressText = p.progressText ∧
      (transferPlaylist p).resultsClasses = p.resultsClasses := by
  have hg : (!p.spotifyAuthorized || !sessionTruthy p.sessionId) = true := by
    rcases h with h | h | h <;> simp [h, sessionTruthy]
  have e : transferPlaylist p =
      { p with
        messageText := .str "Сначала необходимо авторизоваться в Spotify"
        messageClasses := ["message", "error"] } := by
    unfold transferPlaylist
    rw [if_pos hg]
    rfl
  rw [e]
  exact ⟨rfl, rfl, rfl, rfl, rfl, rfl, rfl, rfl, rfl, rfl, rfl, rfl, rfl⟩

theorem transferPlaylist_unauthorized_witness :
    (blank.spotifyAuthorized = false ∨ blank.sessionId = none ∨ blank.sessionId = some "") ∧
      (transferPlaylist blank).requests = blank.requests ∧
      (transferPlaylist blank).btnDisabled = blank.btnDisabled :=
  ⟨Or.inl rfl,
    (transferPlaylist_unauthorized blank (Or.inl rfl)).2.1,
    (transferPlaylist_unauthorized blank (Or.inl rfl)).2.2.2.2.2.2.2.1⟩

/-- C2: on an authorized page with a session identifier, when the credential
field is empty or holds white space only, `transferPlaylist` only sets the
notice to the error 'Пожалуйста, вставьте токен Яндекс Музыки' and focuses
the field: no request is issued, no run is left pending, no timer is
scheduled, the submit control is as it was (not disabled when it was not),
and the progress indicator and the result view are as they were. -/
theorem transferPlaylist_emptyToken (p : Page) (sid : String)
    (hauth : p.spotifyAuthorized = true) (hsid : p.sessionId = some sid) (hne : sid ≠ "")
    (hempty : ∀ c ∈ p.tokenValue.data, isJsWhiteSpace c = true) :
    transferPlaylist p =
        { p with
          messageText := .str "Пожалуйста, вставьте токен Яндекс Музыки"
          messageClasses := ["message", "error"]
          tokenFocused := true } ∧
      (transferPlaylist p).requests = p.requests ∧
      (transferPlaylist p).pending = p.pending ∧
      (transferPlaylist p).timers = p.timers ∧
      (transferPlaylist p).messageText = .str "Пожалуйста, вставьте токен Яндекс Музыки" ∧
      (transferPlaylist p).messageClasses = ["message", Severity.error.name] ∧
      isHidden (transferPlaylist p).messageClasses = false ∧
      (transferPlaylist p).tokenFocused = true ∧
      (transferPlaylist p).btnDisabled = p.btnDisabled ∧
      (p.btnDisabled = false → (transferPlaylist p).btnDisabled = false) ∧
      (transferPlaylist p).btnText = p.btnText ∧
      (transferPlaylist p).progressClasses = p.progressClasses ∧
      (transferPlaylist p).progressWidth = p.progressWidth ∧
      (transferPlaylist p).progressText = p.progressText ∧
      (transferPlaylist p).resultsClasses = p.resultsClasses := by
  have hg : (!p.spotifyAuthorized || !sessionTruthy p.sessionId) = false := by
    simp [hauth, hsid, sessionTruthy, hne]
  have ht : (jsTrim p.tokenValue == "") = true := by
    rw [jsTrim_whiteSpace p.tokenValue hempty]
    rfl
  have e : transferPlaylist p =
      { p with
        messageText := .str "Пожалуйста, вставьте токен Яндекс Музыки"
        messageClasses := ["message", "error"]
        tokenFocused := true } := by
    unfold transferPlaylist
    rw [hg]
    simp only [Bool.false_eq_true, if_false]
    rw [if_pos ht]
    rfl
  rw [e]
  exact ⟨rfl, rfl, rfl, rfl, rfl, rfl, rfl, rfl, rfl, fun h => h, rfl, rfl, rfl, rfl, rfl⟩

theorem transferPlaylist_emptyToken_witness :
    (∀ c ∈ readyNoToken.tokenValue.data, isJsWhiteSpace c = true) ∧
      (transferPlaylist readyNoToken).requests = readyNoToken.requests ∧
      (transferPlaylist readyNoToken).tokenFocused = true :=
  ⟨by decide,
    (transferPlaylist_emptyToken readyNoToken "abc" rfl rfl (by decide) (by decide)).2.1,
    (transferPlaylist_emptyToken readyNoToken "abc" rfl rfl (by decide) (by decide)).2.2.2.2.2.2.2.1⟩

/-! ## Error codes -/

theorem getErrorMessage_table :
    getErrorMessage "spotify_auth_failed" =
        .str "Ошибка авторизации в Spotify. Попробуйте снова." ∧
      getErrorMessage "no_code" = .str "Не получен код авторизации от Spotify." ∧
      getErrorMessage "token_exchange_failed" = .str "Ошибка обмена токенов Spotify." ∧
      getErrorMessage "no_access_token" = .str "Не получен access token от Spotify." ∧
      getErrorMessage "callback_error" = .str "Ошибка при обработке callback от Spotify." :=
  ⟨rfl, rfl, rfl, rfl, rfl⟩

theorem getErrorMessage_unknown (code : String) (hown : errors.lookup code = none)
    (hproto : objectPrototypeNames.contains code = false) :
    getErrorMessage code = .str "Произошла неизвестная ошибка." := by
  have hp : code ∉ objectPrototypeNames := by simpa using hproto
  simp [getErrorMessage, errorsLookup, hown, hp, JsValue.truthy]

theorem getErrorMessage_unknown_xyz :
    getErrorMessage "unknown_xyz" = .str "Произошла неизвестная ошибка." :=
  getErrorMessage_unknown "unknown_xyz" rfl (by decide)

/-- C7: for the codes `constructor`, `toString` and `__proto__` the lookup
`errors[errorCode]` finds the member of `Object.prototype` of that name, which
is truthy, so `getErrorMessage` returns that member and not the generic
message: its result is not a string. -/
theorem getErrorMessage_inherited :
    getErrorMessage "constructor" = .native "constructor" ∧
      getErrorMessage "toString" = .native "toString" ∧
      getErrorMessage "__proto__" = .native "__proto__" ∧
      getErrorMessage "constructor" ≠ .str "Произошла неизвестная ошибка." ∧
      (∀ text, getErrorMessage "constructor" ≠ .str text) := by
  refine ⟨rfl, rfl, rfl, ?_, ?_⟩
  · intro h
    have e : getErrorMessage "constructor" = .native "constructor" := rfl
    rw [e] at h
    cases h
  · intro text h
    have e : getErrorMessage "constructor" = .native "constructor" := rfl
    rw [e] at h
    cases h

/-! ## Page load -/

theorem append_singleton_ne {α : Type} (l : List α) (a : α) : l ++ [a] ≠ l := by
  intro h
  have := congrArg List.length h
  simp at this

theorem urlParamsGet_first (before after : List (String × String)) (name v : String)
    (h : ∀ e ∈ before, e.1 ≠ name) :
    urlParamsGet (before ++ (name, v) :: after) name = some v := by
  induction before with
  | nil => simp [urlParamsGet, List.lookup]
  | cons e rest ih =>
    obtain ⟨k, w⟩ := e
    have hne : k ≠ name := h (k, w) (List.mem_cons_self _ _)
    have hk : (name == k) = false := by
      rw [beq_eq_false_iff_ne]
      exact fun heq => hne heq.symm
    have hrest := ih fun e he => h e (List.mem_cons_of_mem _ he)
    unfold urlParamsGet at hrest ⊢
    rw [List.cons_append, List.lookup_cons, hk]
    exact hrest

/-- C8 (as stated, refuted): with `?session_id=` the parameter is present with
the empty value, yet the handler leaves `sessionId` null and
`spotifyAuthorized` false, does not show the indicator and does not rewrite
the address; and with `?session_id=&session_id=abc` the query holds a
`session_id` of value `abc`, yet the handler, which reads the first one, does
the same. -/
theorem onLoad_emptySessionId :
    urlParamsGet emptySessionPage.search "session_id" = some "" ∧
      (onLoad emptySessionPage).sessionId = none ∧
      (onLoad emptySessionPage).spotifyAuthorized = false ∧
      isHidden (onLoad emptySessionPage).statusClasses = true ∧
      (onLoad emptySessionPage).search = [("session_id", "")] ∧
      (onLoad emptySessionPage).replaced = [] ∧
      ("session_id", "abc") ∈ shadowedSessionPage.search ∧
      (onLoad shadowedSessionPage).sessionId = none ∧
      (onLoad shadowedSessionPage).spotifyAuthorized = false ∧
      isHidden (onLoad shadowedSessionPage).statusClasses = true ∧
      (onLoad shadowedSessionPage).search = shadowedSessionPage.search ∧
      (onLoad shadowedSessionPage).replaced = [] := by
  decide

/-- C8 (amended): when the first `session_id` of the query, the one
`URLSearchParams.get` returns, has a non-empty value `v`, the handler sets
`sessionId` to `v` and `spotifyAuthorized` to true and shows the success
indicator; and for every page the address is replaced by the path without
the query exactly when the first `session_id` or the first `error` of the
query has a non-empty value, and is left as it was otherwise. -/
theorem onLoad_params (p : Page) :
    (∀ v, urlParamsGet p.search "session_id" = some v → v ≠ "" →
        (onLoad p).sessionId = some v ∧ (onLoad p).spotifyAuthorized = true ∧
        (onLoad p).statusText = "✅ Авторизован в Spotify" ∧
        (onLoad p).statusClasses = ["status", "success"] ∧
        isHidden (onLoad p).statusClasses = false) ∧
      (((onLoad p).replaced = p.replaced ++ [p.pathname] ∧ (onLoad p).search = []) ↔
        (paramTruthy (urlParamsGet p.search "session_id") = true ∨
          paramTruthy (urlParamsGet p.search "error") = true)) ∧
      ((paramTruthy (urlParamsGet p.search "session_id") = false ∧
          paramTruthy (urlParamsGet p.search "error") = false) →
        (onLoad p).replaced = p.replaced ∧ (onLoad p).search = p.search) := by
  have hne := append_singleton_ne p.replaced p.pathname
  refine ⟨?_, ?_, ?_⟩
  · intro v hv hv0
    cases he : urlParamsGet p.search "error" with
    | none =>
      simp [onLoad, hv, he, paramTruthy, hv0, showMessage, showSpotifyStatus, setTimeout,
        isHidden]
    | some e =>
      by_cases he0 : e = ""
      · simp [onLoad, hv, he, paramTruthy, hv0, he0, showMessage, showSpotifyStatus,
          setTimeout, isHidden]
      · simp [onLoad, hv, he, paramTruthy, hv0, he0, showMessage, showSpotifyStatus,
          setTimeout, isHidden]
  · cases hs : urlParamsGet p.search "session_id" with
    | none =>
      cases he : urlParamsGet p.search "error" with
      | none => simp [onLoad, hs, he, paramTruthy, hne.symm]
      | some e =>
        by_cases he0 : e = ""
        · simp [onLoad, hs, he, paramTruthy, he0, hne.symm]
        · simp [onLoad, hs, he, paramTruthy, he0, showMessage]
    | some v =>
      by_cases hv0 : v = ""
      · cases he : urlParamsGet p.search "error" with
        | none => simp [onLoad, hs, he, paramTruthy, hv0, hne.symm]
        | some e =>
          by_cases he0 : e = ""
          · simp [onLoad, hs, he, paramTruthy, hv0, he0, hne.symm]
          · simp [onLoad, hs, he, paramTruthy, hv0, he0, showMessage]
      · cases he : urlParamsGet p.search "error" with
        | none =>
          simp [onLoad, hs, he, paramTruthy, hv0, showMessage, showSpotifyStatus, setTimeout]
        | some e =>
          by_cases he0 : e = ""
          · simp [onLoad, hs, he, paramTruthy, hv0, he0, showMessage, showSpotifyStatus,
              setTimeout]
          · simp [onLoad, hs, he, paramTruthy, hv0, he0, showMessage, showSpotifyStatus,
              setTimeout]
  · rintro ⟨hs, he⟩
    cases hs' : urlParamsGet p.search "session_id" with
    | none =>
      cases he' : urlParamsGet p.search "error" with
      | none => simp [onLoad, hs', he', paramTruthy]
      | some e =>
        have he0 : e = "" := by simpa [he', paramTruthy] using he
        simp [onLoad, hs', he', paramTruthy, he0]
    | some v =>
      have hv0 : v = "" := by simpa [hs', paramTruthy] using hs
      cases he' : urlParamsGet p.search "error" with
      | none => simp [onLoad, hs', he', paramTruthy, hv0]
      | some e =>
        have he0 : e = "" := by simpa [he', paramTruthy] using he
        simp [onLoad, hs', he', paramTruthy, hv0, he0]

theorem onLoad_params_witness :
    urlParamsGet sessionPage.search "session_id" = some "abc" ∧
      (onLoad sessionPage).sessionId = some "abc" ∧
      (onLoad sessionPage).spotifyAuthorized = true ∧
      (onLoad sessionPage).replaced = ["/"] ∧ (onLoad sessionPage).search = [] :=
  ⟨rfl, ((onLoad_params sessionPage).1 "abc" rfl (by decide)).1,
    ((onLoad_params sessionPage).1 "abc" rfl (by decide)).2.1,
    ((onLoad_params sessionPage).2.1.mpr (Or.inl rfl)).1,
    ((onLoad_params sessionPage).2.1.mpr (Or.inl rfl)).2⟩

/-! ## Notices and their timers -/

/-- C9: loading the page with `?session_id=a&error=no_code` shows the success
notice and then, at once, the error notice for `no_code`; the timer of the
success notice is still queued, and when it fires 5000 ms later it hides the
notice area while it holds the error notice, which no `showMessage` call has
replaced. -/
theorem errorNotice_hidden_by_earlier_timer :
    (onLoad bothParamsPage).messageText = .str "Не получен код авторизации от Spotify." ∧
      (onLoad bothParamsPage).messageClasses = ["message", "error"] ∧
      isHidden (onLoad bothParamsPage).messageClasses = false ∧
      (onLoad bothParamsPage).timers = [⟨5000, TimerAction.hideMessage⟩] ∧
      isHidden (step sampleRuntime (onLoad bothParamsPage) (.elapse 4999)).messageClasses
        = false ∧
      (step sampleRuntime (onLoad bothParamsPage) (.elapse 5000)).messageText =
        .str "Не получен код авторизации от Spotify." ∧
      isHidden (step sampleRuntime (onLoad bothParamsPage) (.elapse 5000)).messageClasses
        = true := by
  refine ⟨rfl, rfl, rfl, rfl, rfl, rfl, rfl⟩

/-! ## One transfer -/

theorem transferPlaylist_submit (p : Page) (hauth : p.spotifyAuthorized = true)
    (hsid : sessionTruthy p.sessionId = true) (htok : jsTrim p.tokenValue ≠ "") :
    transferPlaylist p =
      { p with
        btnDisabled := true
        btnText := "Обработка..."
        progressClasses := classRemove p.progressClasses "hidden"
        progressWidth := "10%"
        progressText := "Получение треков из Яндекс Музыки..."
        resultsClasses := classAdd p.resultsClasses "hidden"
        pending := p.pending ++ [(p.requests.length, Phase.awaitFetch)]
        requests := p.requests ++
          [⟨"/transfer", "POST", jsTrim p.tokenValue, p.sessionId.getD ""⟩] } := by
  have hg : (!p.spotifyAuthorized || !sessionTruthy p.sessionId) = false := by
    simp [hauth, hsid]
  have ht : (jsTrim p.tokenValue == "") = false := by
    simpa using htok
  unfold transferPlaylist
  rw [hg]
  simp only [Bool.false_eq_true, if_false, ht]
  rfl

theorem transferWith_httpError (rt : Runtime) (p : Page) (r : Response)
    (hauth : p.spotifyAuthorized = true) (hsid : sessionTruthy p.sessionId = true)
    (htok : jsTrim p.tokenValue ≠ "") (hidle : p.pending = []) (hok : r.ok = false) :
    transferWith rt (.ok r) p =
      catchBlock (match errorMessageOf rt r with | .ok m => m | .error m => m)
        { transferPlaylist p with pending := [] } := by
  simp only [transferWith, run, List.foldl, step]
  rw [transferPlaylist_submit p hauth hsid htok]
  simp [hidle, afterFetch, hok, setPhase, afterErrorBody, dropRun]
  cases errorMessageOf rt r <;> rfl

theorem transferWith_response (rt : Runtime) (p : Page) (r : Response)
    (hauth : p.spotifyAuthorized = true) (hsid : sessionTruthy p.sessionId = true)
    (htok : jsTrim p.tokenValue ≠ "") (hidle : p.pending = []) (hok : r.ok = true) :
    transferWith rt (.ok r) p =
      afterBody rt p.requests.length r
        { transferPlaylist p with
          progressWidth := "50%"
          progressText := "Поиск треков в Spotify..."
          pending := [(p.requests.length, Phase.awaitBody r)] } := by
  simp only [transferWith, run, List.foldl, step]
  rw [transferPlaylist_submit p hauth hsid htok]
  simp [hidle, afterFetch, hok, setPhase, updateProgress]
  rfl

theorem errorMessageOf_detail (rt : Runtime) (r : Response) (body : JsValue) (d : String)
    (hjson : r.json = .ok body) (hbody : body.isNullish = false)
    (hdetail : body.prop "detail" = .str d) (hd : d ≠ "") :
    errorMessageOf rt r = .ok d := by
  simp [errorMessageOf, hjson, JsValue.getProp, hbody, hdetail, JsValue.truthy, hd,
    JsValue.toStringJs]

/-- C4 (as stated, refuted): HTTP 500 with the body `{"detail": ""}` carries
the detail string `""`, and the notice is 'Ошибка при переносе: Ошибка 500',
not 'Ошибка при переносе: ' followed by that detail. -/
theorem transferWith_emptyDetail :
    (transferWith sampleRuntime (.ok ⟨500, .ok (.obj [("detail", .str "")])⟩) ready).messageText
        = .str "Ошибка при переносе: Ошибка 500" ∧
      (transferWith sampleRuntime (.ok ⟨500, .ok (.obj [("detail", .str "")])⟩)
          ready).messageText ≠ .str ("Ошибка при переносе: " ++ "") := by
  have e : (transferWith sampleRuntime (.ok ⟨500, .ok (.obj [("detail", .str "")])⟩)
      ready).messageText = .str "Ошибка при переносе: Ошибка 500" := rfl
  refine ⟨e, ?_⟩
  rw [e]
  intro h
  have h2 := JsValue.str.inj h
  revert h2
  decide

/-- C4 (amended): for a non-2xx response whose parsed body carries a
non-empty detail string `d`, a transfer started from an idle page ends with
the error notice 'Ошибка при переносе: ' followed by `d`, progress at 0% with
the label 'Произошла ошибка', the result view hidden after each of its steps,
and the submit control enabled again with its label restored. -/
theorem transferWith_detail (rt : Runtime) (p : Page) (r : Response) (body : JsValue)
    (d : String)
    (hauth : p.spotifyAuthorized = true) (hsid : sessionTruthy p.sessionId = true)
    (htok : jsTrim p.tokenValue ≠ "") (hidle : p.pending = []) (hok : r.ok = false)
    (hjson : r.json = .ok body) (hbody : body.isNullish = false)
    (hdetail : body.prop "detail" = .str d) (hd : d ≠ "") :
    (transferWith rt (.ok r) p).messageText = .str ("Ошибка при переносе: " ++ d) ∧
      (transferWith rt (.ok r) p).messageClasses = ["message", Severity.error.name] ∧
      isHidden (transferWith rt (.ok r) p).messageClasses = false ∧
      (transferWith rt (.ok r) p).progressWidth = "0%" ∧
      (transferWith rt (.ok r) p).progressText = "Произошла ошибка" ∧
      isHidden (run rt p [.invoke]).resultsClasses = true ∧
      isHidden (run rt p [.invoke, .fetchSettled p.requests.length (.ok r)]).resultsClasses
        = true ∧
      isHidden (transferWith rt (.ok r) p).resultsClasses = true ∧
      (transferWith rt (.ok r) p).btnDisabled = false ∧
      (transferWith rt (.ok r) p).btnText = "Перенести плейлист" ∧
      (transferWith rt (.ok r) p).pending = [] := by
  have hm := errorMessageOf_detail rt r body d hjson hbody hdetail hd
  have h1 : isHidden (run rt p [.invoke]).resultsClasses = true := by
    simp only [run, List.foldl, step]
    rw [transferPlaylist_submit p hauth hsid htok]
    exact isHidden_classAdd _
  have h2 : isHidden (run rt p [.invoke, .fetchSettled p.requests.length (.ok r)]).resultsClasses
      = true := by
    simp only [run, List.foldl, step]
    rw [transferPlaylist_submit p hauth hsid htok]
    simp [hidle, afterFetch, hok, setPhase]
    exact isHidden_classAdd _
  rw [transferWith_httpError rt p r hauth hsid htok hidle hok, hm,
    transferPlaylist_submit p hauth hsid htok]
  refine ⟨rfl, rfl, rfl, rfl, rfl, h1, h2, ?_, rfl, rfl, rfl⟩
  exact isHidden_classAdd _

theorem transferWith_detail_witness :
    (transferWith sampleRuntime (.ok ⟨500, .ok (.obj [("detail", .str "boom")])⟩)
        ready).messageText = .str ("Ошибка при переносе: " ++ "boom") ∧
      (transferWith sampleRuntime (.ok ⟨500, .ok (.obj [("detail", .str "boom")])⟩)
        ready).btnDisabled = false :=
  ⟨(transferWith_detail sampleRuntime ready ⟨500, .ok (.obj [("detail", .str "boom")])⟩
      (.obj [("detail", .str "boom")]) "boom" rfl rfl (by decide) rfl rfl rfl rfl rfl
      (by decide)).1,
    (transferWith_detail sampleRuntime ready ⟨500, .ok (.obj [("detail", .str "boom")])⟩
      (.obj [("detail", .str "boom")]) "boom" rfl rfl (by decide) rfl rfl rfl rfl rfl
      (by decide)).2.2.2.2.2.2.2.2.1⟩

/-- C5 (as stated, refuted): HTTP 500 and HTTP 404 with the body `{}`, an
object with no detail field, give the notices 'Ошибка при переносе: Ошибка 500'
and 'Ошибка при переносе: Ошибка 404': not the 'Неизвестная ошибка' fallback,
and not independent of the status. -/
theorem transferWith_emptyObject :
    (transferWith sampleRuntime (.ok ⟨500, .ok (.obj [])⟩) ready).messageText
        = .str "Ошибка при переносе: Ошибка 500" ∧
      (transferWith sampleRuntime (.ok ⟨404, .ok (.obj [])⟩) ready).messageText
        = .str "Ошибка при переносе: Ошибка 404" ∧
      (transferWith sampleRuntime (.ok ⟨500, .ok (.obj [])⟩) ready).messageText
        ≠ .str "Ошибка при переносе: Неизвестная ошибка" := by
  have e : (transferWith sampleRuntime (.ok ⟨500, .ok (.obj [])⟩) ready).messageText
      = .str "Ошибка при переносе: Ошибка 500" := rfl
  refine ⟨e, rfl, ?_⟩
  rw [e]
  intro h
  have h2 := JsValue.str.inj h
  revert h2
  decide

/-- C5 (amended): for a non-2xx response, a transfer started from an idle page
shows 'Ошибка при переносе: Неизвестная ошибка' when the body fails to parse,
whatever the status; and when the body parses to an object with no detail
field it shows 'Ошибка при переносе: Ошибка ' followed by the status code. -/
theorem transferWith_noDetail (rt : Runtime) (p : Page) (r : Response)
    (hauth : p.spotifyAuthorized = true) (hsid : sessionTruthy p.sessionId = true)
    (htok : jsTrim p.tokenValue ≠ "") (hidle : p.pending = []) (hok : r.ok = false) :
    (∀ e, r.json = .error e →
        (transferWith rt (.ok r) p).messageText =
          .str "Ошибка при переносе: Неизвестная ошибка") ∧
      (∀ fields, r.json = .ok (.obj fields) → fields.lookup "detail" = none →
        (transferWith rt (.ok r) p).messageText =
          .str ("Ошибка при переносе: Ошибка " ++ toString r.status)) ∧
      (transferWith rt (.ok r) p).messageClasses = ["message", Severity.error.name] := by
  rw [transferWith_httpError rt p r hauth hsid htok hidle hok]
  refine ⟨?_, ?_, rfl⟩
  · intro e he
    have hm : errorMessageOf rt r = .ok "Неизвестная ошибка" := by
      simp [errorMessageOf, he, JsValue.getProp, JsValue.isNullish, JsValue.prop,
        JsValue.ownProp, JsValue.truthy, JsValue.toStringJs, List.lookup]
    rw [hm]
    rfl
  · intro fields hf hnone
    have hm : errorMessageOf rt r = .ok ("Ошибка " ++ toString r.status) := by
      simp [errorMessageOf, hf, JsValue.getProp, JsValue.isNullish, JsValue.prop,
        JsValue.ownProp, hnone, JsValue.truthy]
    rw [hm]
    rfl

theorem transferWith_noDetail_witness :
    (transferWith sampleRuntime (.ok ⟨502, .error "Unexpected token"⟩) ready).messageText =
        .str "Ошибка при переносе: Неизвестная ошибка" ∧
      (transferWith sampleRuntime (.ok ⟨502, .error "Unexpected token"⟩) ready).messageClasses =
        ["message", Severity.error.name] :=
  ⟨(transferWith_noDetail sampleRuntime ready ⟨502, .error "Unexpected token"⟩ rfl rfl
      (by decide) rfl rfl).1 "Unexpected token" rfl,
    (transferWith_noDetail sampleRuntime ready ⟨502, .error "Unexpected token"⟩ rfl rfl
      (by decide) rfl rfl).2.2⟩

/-! ## Rendering -/

theorem trackText_track (rt : Runtime) (v : JsValue) (t : Track) (h : IsTrack v t) :
    trackText rt v = .ok t.entry := by
  obtain ⟨hn, ha, ht⟩ := h
  simp [trackText, JsValue.getProp, hn, ha, ht, JsValue.toStringJs, Track.entry]

theorem appendTracks_tracks (rt : Runtime) (items : List JsValue) (tracks : List Track)
    (h : List.Forall₂ IsTrack items tracks) (p : Page) :
    appendTracks rt items p =
      ({ p with notFoundList := p.notFoundList ++ tracks.map Track.entry }, none) := by
  induction h generalizing p with
  | nil => simp [appendTracks]
  | cons hv _ ih =>
    simp [appendTracks, trackText_track rt _ _ hv, ih]

theorem isNullish_arr (items : List JsValue) : (JsValue.arr items).isNullish = false := rfl

theorem prop_arr_length (items : List JsValue) :
    (JsValue.arr items).prop "length" = .num items.length := rfl

theorem setterThrows_str (rt : Runtime) (text : String) :
    setterThrows rt (.str text) = none := rfl

theorem setterThrows_num (rt : Runtime) (n : Int) : setterThrows rt (.num n) = none := by
  unfold setterThrows JsValue.toStringJs
  by_cases h : n.natAbs < 1000000000000000000000
  · rw [if_pos h]
  · rw [if_neg h]

theorem showResults_missingTracks (rt : Runtime) (body : JsValue) (p : Page)
    (hbody : body.isNullish = false)
    (hurl : setterThrows rt (body.prop "playlist_url") = none)
    (htotal : setterThrows rt (body.prop "total_tracks") = none)
    (hfound : setterThrows rt (body.prop "found_tracks") = none)
    (htracks : (body.prop "not_found_tracks").isNullish = true) :
    showResults rt body p =
      ({ p with
          resultsClasses := classRemove p.resultsClasses "hidden"
          linkHref := body.prop "playlist_url"
          linkText := body.prop "playlist_url"
          totalTracks := body.prop "total_tracks"
          foundTracks := body.prop "found_tracks" },
        some (rt.nullishRead (body.prop "not_found_tracks") "length")) := by
  simp [showResults, JsValue.getProp, hbody, htracks, hurl, htotal, hfound]

theorem showResults_result (rt : Runtime) (body : JsValue) (res : TransferResult) (p : Page)
    (h : IsTransferResult body res) :
    showResults rt body p =
      ({ p with
          resultsClasses := classRemove p.resultsClasses "hidden"
          linkHref := .str res.playlist_url
          linkText := .str res.playlist_url
          totalTracks := .num res.total_tracks
          foundTracks := .num res.found_tracks
          notFoundCount := .num res.not_found_tracks.length
          notFoundClasses :=
            if res.not_found_tracks.isEmpty then classAdd p.notFoundClasses "hidden"
            else classRemove p.notFoundClasses "hidden"
          notFoundList :=
            if res.not_found_tracks.isEmpty then p.notFoundList
            else res.not_found_tracks.map Track.entry
          scrolls := p.scrolls + 1 },
        none) := by
  obtain ⟨url, total, found, tracks⟩ := res
  obtain ⟨hn, hurl, htotal, hfound, items, hitems, htracks⟩ := h
  simp only at hurl htotal hfound htracks
  cases htracks with
  | nil =>
    simp [showResults, JsValue.getProp, hn, hurl, htotal, hfound, hitems, isNullish_arr,
      prop_arr_length, JsValue.truthy, JsValue.gtZero, setterThrows_str, setterThrows_num]
  | cons hv hrest =>
    simp [showResults, JsValue.getProp, hn, hurl, htotal, hfound, hitems, isNullish_arr,
      prop_arr_length, JsValue.truthy, JsValue.gtZero, setterThrows_str, setterThrows_num,
      appendTracks_tracks rt _ _ (List.Forall₂.cons hv hrest)]
    exact hrest.length_eq

/-- C3: for a 2xx response whose parsed body is a transfer result, a transfer
started from an idle page ends with the link's address and text equal to
`playlist_url`, the three counters equal to `total_tracks`, `found_tracks` and
the number of tracks not found, the not-found section shown and listing one
entry 'artist - title' per track in order when there are any and hidden when
there are none, the result view shown, progress at 100%, and the success
notice shown. -/
theorem transferWith_result (rt : Runtime) (p : Page) (r : Response) (body : JsValue)
    (res : TransferResult)
    (hauth : p.spotifyAuthorized = true) (hsid : sessionTruthy p.sessionId = true)
    (htok : jsTrim p.tokenValue ≠ "") (hidle : p.pending = []) (hok : r.ok = true)
    (hjson : r.json = .ok body) (hres : IsTransferResult body res) :
    (transferWith rt (.ok r) p).linkHref = .str res.playlist_url ∧
      (transferWith rt (.ok r) p).linkText = .str res.playlist_url ∧
      (transferWith rt (.ok r) p).totalTracks = .num res.total_tracks ∧
      (transferWith rt (.ok r) p).foundTracks = .num res.found_tracks ∧
      (transferWith rt (.ok r) p).notFoundCount = .num res.not_found_tracks.length ∧
      (res.not_found_tracks ≠ [] →
        isHidden (transferWith rt (.ok r) p).notFoundClasses = false ∧
        (transferWith rt (.ok r) p).notFoundList = res.not_found_tracks.map Track.entry) ∧
      (res.not_found_tracks = [] →
        isHidden (transferWith rt (.ok r) p).notFoundClasses = true) ∧
      isHidden (transferWith rt (.ok r) p).resultsClasses = false ∧
      (transferWith rt (.ok r) p).progressWidth = "100%" ∧
      (transferWith rt (.ok r) p).progressText = "Готово!" ∧
      (transferWith rt (.ok r) p).messageText = .str "Плейлист успешно перенесён!" ∧
      (transferWith rt (.ok r) p).messageClasses = ["message", Severity.success.name] ∧
      isHidden (transferWith rt (.ok r) p).messageClasses = false ∧
      (transferWith rt (.ok r) p).btnDisabled = false ∧
      (transferWith rt (.ok r) p).pending = [] := by
  rw [transferWith_response rt p r hauth hsid htok hidle hok]
  simp only [afterBody, hjson, showResults_result rt body res _ hres]
  refine ⟨rfl, rfl, rfl, rfl, rfl, ?_, ?_, ?_, rfl, rfl, rfl, rfl, rfl, rfl, ?_⟩
  · intro hne
    have he : res.not_found_tracks.isEmpty = false := by
      cases hl : res.not_found_tracks with
      | nil => exact absurd hl hne
      | cons _ _ => rfl
    simp [finallyBlock, showMessage, setTimeout, updateProgress, dropRun, he,
      isHidden_classRemove]
  · intro hnil
    simp [finallyBlock, showMessage, setTimeout, updateProgress, dropRun, hnil,
      isHidden_classAdd]
  · simp [finallyBlock, showMessage, setTimeout, updateProgress, dropRun,
      isHidden_classRemove]
  · simp [finallyBlock, showMessage, setTimeout, updateProgress, dropRun]

theorem transferWith_result_witness :
    (transferWith sampleRuntime (.ok ⟨200, .ok sampleBody⟩) ready).linkText = .str "u" ∧
      (transferWith sampleRuntime (.ok ⟨200, .ok sampleBody⟩) ready).totalTracks = .num 10 ∧
      (transferWith sampleRuntime (.ok ⟨200, .ok sampleBody⟩) ready).foundTracks = .num 8 ∧
      (transferWith sampleRuntime (.ok ⟨200, .ok sampleBody⟩) ready).notFoundCount = .num 1 ∧
      (transferWith sampleRuntime (.ok ⟨200, .ok sampleBody⟩) ready).notFoundList = ["A - T"] :=
  have h := transferWith_result sampleRuntime ready ⟨200, .ok sampleBody⟩ sampleBody
    sampleResult rfl rfl (by decide) rfl rfl rfl
    ⟨rfl, rfl, rfl, rfl, _, rfl, List.Forall₂.cons ⟨rfl, rfl, rfl⟩ List.Forall₂.nil⟩
  ⟨h.2.1, h.2.2.1, h.2.2.2.1, h.2.2.2.2.1, (h.2.2.2.2.2.1 (by simp [sampleResult])).2⟩

/-- C10 (as stated, refuted): the body `bodyBadLink` has no `not_found_tracks`,
yet `showResults` throws at line 184, where the `href` setter converts the
`playlist_url` object, not at the read of `length`; the link and the counters
are not filled in and the notice carries the message of that exception.  A
`null` body throws at the read of `playlist_url`. -/
theorem showResults_badLink :
    bodyBadLink.isNullish = false ∧
      (bodyBadLink.prop "not_found_tracks").isNullish = true ∧
      (showResults sampleRuntime bodyBadLink ready).2 =
        some "Cannot convert object to primitive value" ∧
      (showResults sampleRuntime bodyBadLink ready).2 ≠
        some (sampleRuntime.nullishRead (bodyBadLink.prop "not_found_tracks") "length") ∧
      (transferWith sampleRuntime (.ok ⟨200, .ok bodyBadLink⟩) ready).linkHref =
        ready.linkHref ∧
      (transferWith sampleRuntime (.ok ⟨200, .ok bodyBadLink⟩) ready).linkText =
        ready.linkText ∧
      (transferWith sampleRuntime (.ok ⟨200, .ok bodyBadLink⟩) ready).totalTracks =
        ready.totalTracks ∧
      (transferWith sampleRuntime (.ok ⟨200, .ok bodyBadLink⟩) ready).foundTracks =
        ready.foundTracks ∧
      (transferWith sampleRuntime (.ok ⟨200, .ok bodyBadLink⟩) ready).messageText =
        .str "Ошибка при переносе: Cannot convert object to primitive value" ∧
      (showResults sampleRuntime .null ready).2 =
        some "Cannot read properties of null (reading \x27playlist_url\x27)" := by
  refine ⟨rfl, rfl, rfl, ?_, rfl, rfl, rfl, rfl, rfl, rfl⟩
  decide

/-- C10 (amended): for a 2xx response whose parsed body is not `null`, has no
`not_found_tracks` (undefined or null) and whose `playlist_url`,
`total_tracks` and `found_tracks` the setters of the link and the counters
convert without throwing, `showResults` throws at the read of the `length`
with the result view revealed and the link and the total and found counters
filled in, the not-found counter, section and list untouched; the transfer
then ends on the failure path: error notice with the thrown message, progress
back at 0%, no notice timer scheduled, the result view still revealed. -/
theorem transferWith_missingTracks (rt : Runtime) (p : Page) (r : Response) (body : JsValue)
    (hauth : p.spotifyAuthorized = true) (hsid : sessionTruthy p.sessionId = true)
    (htok : jsTrim p.tokenValue ≠ "") (hidle : p.pending = []) (hok : r.ok = true)
    (hjson : r.json = .ok body) (hbody : body.isNullish = false)
    (hurl : setterThrows rt (body.prop "playlist_url") = none)
    (htotal : setterThrows rt (body.prop "total_tracks") = none)
    (hfound : setterThrows rt (body.prop "found_tracks") = none)
    (htracks : (body.prop "not_found_tracks").isNullish = true) :
    (∀ q, (showResults rt body q).2 =
        some (rt.nullishRead (body.prop "not_found_tracks") "length") ∧
      (showResults rt body q).1.notFoundCount = q.notFoundCount ∧
      (showResults rt body q).1.notFoundClasses = q.notFoundClasses ∧
      (showResults rt body q).1.notFoundList = q.notFoundList ∧
      (showResults rt body q).1.scrolls = q.scrolls) ∧
      (transferWith rt (.ok r) p).messageText =
        .str ("Ошибка при переносе: " ++
          rt.nullishRead (body.prop "not_found_tracks") "length") ∧
      (transferWith rt (.ok r) p).messageClasses = ["message", Severity.error.name] ∧
      isHidden (transferWith rt (.ok r) p).messageClasses = false ∧
      (transferWith rt (.ok r) p).progressWidth = "0%" ∧
      (transferWith rt (.ok r) p).progressText = "Произошла ошибка" ∧
      (transferWith rt (.ok r) p).timers =
        insertTimer ⟨p.now + 2000, TimerAction.hideProgress⟩ p.timers ∧
      isHidden (transferWith rt (.ok r) p).resultsClasses = false ∧
      (transferWith rt (.ok r) p).linkHref = body.prop "playlist_url" ∧
      (transferWith rt (.ok r) p).linkText = body.prop "playlist_url" ∧
      (transferWith rt (.ok r) p).totalTracks = body.prop "total_tracks" ∧
      (transferWith rt (.ok r) p).foundTracks = body.prop "found_tracks" ∧
      (transferWith rt (.ok r) p).notFoundCount = p.notFoundCount ∧
      (transferWith rt (.ok r) p).btnDisabled = false := by
  refine ⟨fun q => ?_, ?_⟩
  · rw [showResults_missingTracks rt body q hbody hurl htotal hfound htracks]
    exact ⟨rfl, rfl, rfl, rfl, rfl⟩
  · rw [transferWith_response rt p r hauth hsid htok hidle hok]
    simp only [afterBody, hjson,
      showResults_missingTracks rt body _ hbody hurl htotal hfound htracks]
    rw [transferPlaylist_submit p hauth hsid htok]
    refine ⟨rfl, rfl, rfl, rfl, rfl, rfl, ?_, rfl, rfl, rfl, rfl, rfl, rfl⟩
    simp [catchBlock, finallyBlock, showMessage, setTimeout, updateProgress, dropRun,
      isHidden_classRemove]

theorem transferWith_missingTracks_witness :
    (transferWith sampleRuntime (.ok ⟨200, .ok bodyNoTracks⟩) ready).messageText =
        .str ("Ошибка при переносе: " ++
          sampleRuntime.nullishRead (bodyNoTracks.prop "not_found_tracks") "length") ∧
      (transferWith sampleRuntime (.ok ⟨200, .ok bodyNoTracks⟩) ready).progressWidth = "0%" ∧
      isHidden (transferWith sampleRuntime (.ok ⟨200, .ok bodyNoTracks⟩) ready).resultsClasses
        = false ∧
      (transferWith sampleRuntime (.ok ⟨200, .ok bodyNoTracks⟩) ready).linkHref = .str "u" ∧
      (transferWith sampleRuntime (.ok ⟨200, .ok bodyNoTracks⟩) ready).totalTracks = .num 10 :=
  have h := transferWith_missingTracks sampleRuntime ready ⟨200, .ok bodyNoTracks⟩
    bodyNoTracks rfl rfl (by decide) rfl rfl rfl rfl rfl rfl rfl rfl
  ⟨h.2.1, h.2.2.2.2.1, h.2.2.2.2.2.2.2.1, h.2.2.2.2.2.2.2.2.1, h.2.2.2.2.2.2.2.2.2.2.1⟩

/-! ## Runs of the page -/

theorem fire_frame (a : TimerAction) (p : Page) :
    (fire a p).btnDisabled = p.btnDisabled ∧ (fire a p).btnText = p.btnText ∧
      (fire a p).pending = p.pending ∧ (fire a p).requests = p.requests := by
  cases a <;> exact ⟨rfl, rfl, rfl, rfl⟩

theorem foldl_fire_frame (ts : List Timer) (p : Page) :
    (ts.foldl (fun q t => fire t.action q) p).btnDisabled = p.btnDisabled ∧
      (ts.foldl (fun q t => fire t.action q) p).btnText = p.btnText ∧
      (ts.foldl (fun q t => fire t.action q) p).pending = p.pending ∧
      (ts.foldl (fun q t => fire t.action q) p).requests = p.requests := by
  induction ts generalizing p with
  | nil => exact ⟨rfl, rfl, rfl, rfl⟩
  | cons t rest ih =>
    obtain ⟨h1, h2, h3, h4⟩ := ih (fire t.action p)
    obtain ⟨g1, g2, g3, g4⟩ := fire_frame t.action p
    simp only [List.foldl]
    exact ⟨h1.trans g1, h2.trans g2, h3.trans g3, h4.trans g4⟩

theorem fireDue_frame (p : Page) :
    (fireDue p).btnDisabled = p.btnDisabled ∧ (fireDue p).btnText = p.btnText ∧
      (fireDue p).pending = p.pending ∧ (fireDue p).requests = p.requests := by
  unfold fireDue
  exact foldl_fire_frame _ _

theorem appendTracks_frame (rt : Runtime) (items : List JsValue) (p : Page) :
    (appendTracks rt items p).1.pending = p.pending ∧
      (appendTracks rt items p).1.requests = p.requests := by
  induction items generalizing p with
  | nil => exact ⟨rfl, rfl⟩
  | cons v rest ih =>
    unfold appendTracks
    cases trackText rt v with
    | error e => exact ⟨rfl, rfl⟩
    | ok text => exact ih _

theorem appendTracks_frame_of (rt : Runtime) (items : List JsValue) (p q : Page)
    (thrown : Option String) (h : appendTracks rt items p = (q, thrown)) :
    q.pending = p.pending ∧ q.requests = p.requests := by
  have hf := appendTracks_frame rt items p
  rw [h] at hf
  exact hf

theorem showResults_frame (rt : Runtime) (result : JsValue) (p : Page) :
    (showResults rt result p).1.pending = p.pending ∧
      (showResults rt result p).1.requests = p.requests := by
  unfold showResults
  simp only
  split
  · exact ⟨rfl, rfl⟩
  · split
    · exact ⟨rfl, rfl⟩
    · split
      · exact ⟨rfl, rfl⟩
      · split
        · exact ⟨rfl, rfl⟩
        · split
          · exact ⟨rfl, rfl⟩
          · split
            · exact ⟨rfl, rfl⟩
            · split
              · exact ⟨rfl, rfl⟩
              · split
                · rename_i items hitems
                  split
                  · rename_i q e heq
                    have h := appendTracks_frame_of rt items _ q _ heq
                    exact h
                  · rename_i q heq
                    have h := appendTracks_frame_of rt items _ q _ heq
                    exact h
                · exact ⟨rfl, rfl⟩
              · exact ⟨rfl, rfl⟩

theorem lookup_single (l : List (Nat × Phase)) (id : Nat) (ph : Phase)
    (hlen : l.length ≤ 1) (hl : l.lookup id = some ph) : l = [(id, ph)] := by
  match l, hlen, hl with
  | [], _, hl => simp at hl
  | [(k, v)], _, hl =>
    by_cases hk : id = k
    · subst hk
      simp at hl
      simp [hl]
    · have hb : (id == k) = false := by simpa using hk
      simp [List.lookup, hb] at hl
  | _ :: _ :: _, hlen, _ => simp at hlen

theorem sound_of {p0 p q : Page} (h : Sound p0 p) (hd : q.btnDisabled = p.btnDisabled)
    (hp : q.pending = [] ↔ p.pending = []) (hl : q.pending.length ≤ 1)
    (hr : q.requests = p.requests) (ht : q.btnText = p.btnText) : Sound p0 q where
  flag := by rw [hd, h.flag, not_iff_not, hp]
  single := hl
  grown := by rw [hr]; exact h.grown
  busy := fun hne => by rw [hr]; exact h.busy (fun hnil => hne (hp.mpr hnil))
  label := fun hnil hlt => by rw [ht]; rw [hr] at hlt; exact h.label (hp.mp hnil) hlt

theorem sound_done {p0 q : Page} (hd : q.btnDisabled = false) (hp : q.pending = [])
    (ht : q.btnText = "Перенести плейлист")
    (hr : p0.requests.length ≤ q.requests.length) : Sound p0 q where
  flag := by simp [hd, hp]
  single := by simp [hp]
  grown := hr
  busy := fun hne => absurd hp hne
  label := fun _ _ => ht

theorem catchBlock_done (message : String) (p : Page) :
    (catchBlock message p).btnDisabled = false ∧
      (catchBlock message p).btnText = "Перенести плейлист" ∧
      (catchBlock message p).pending = p.pending ∧
      (catchBlock message p).requests = p.requests :=
  ⟨rfl, rfl, rfl, rfl⟩

theorem afterBody_done (rt : Runtime) (id : Nat) (r : Response) (p : Page) :
    (afterBody rt id r p).btnDisabled = false ∧
      (afterBody rt id r p).btnText = "Перенести плейлист" ∧
      (afterBody rt id r p).pending = (dropRun id p).pending ∧
      (afterBody rt id r p).requests = p.requests := by
  unfold afterBody
  simp only
  split
  · exact ⟨rfl, rfl, rfl, rfl⟩
  · rename_i result hres
    obtain ⟨hp, hr⟩ := showResults_frame rt result
      (updateProgress 90 "Добавление треков в плейлист..." (dropRun id p))
    split
    · rename_i q message heq
      rw [heq] at hp hr
      exact ⟨rfl, rfl, hp, hr⟩
    · rename_i q heq
      rw [heq] at hp hr
      exact ⟨rfl, rfl, hp, hr⟩

theorem afterErrorBody_done (rt : Runtime) (id : Nat) (r : Response) (p : Page) :
    (afterErrorBody rt id r p).btnDisabled = false ∧
      (afterErrorBody rt id r p).btnText = "Перенести плейлист" ∧
      (afterErrorBody rt id r p).pending = (dropRun id p).pending ∧
      (afterErrorBody rt id r p).requests = p.requests := by
  unfold afterErrorBody
  split <;> exact ⟨rfl, rfl, rfl, rfl⟩

theorem dropRun_single (id : Nat) (ph : Phase) (p : Page) (h : p.pending = [(id, ph)]) :
    (dropRun id p).pending = [] := by
  simp [dropRun, h]

theorem sound_step (rt : Runtime) (p0 p : Page) (e : Event) (h : Sound p0 p)
    (hcall : e.isInvoke = true → p.btnDisabled = false) : Sound p0 (step rt p e) := by
  cases e with
  | typeToken value => exact sound_of h rfl Iff.rfl h.single rfl rfl
  | elapse ms =>
    obtain ⟨h1, h2, h3, h4⟩ := fireDue_frame { p with now := p.now + ms }
    exact sound_of h h1 (by simp only [step]; rw [h3]) (by simp only [step]; rw [h3]; exact h.single)
      h4 h2
  | invoke =>
    have hd : p.btnDisabled = false := hcall rfl
    have hnil : p.pending = [] := by
      by_contra hne
      have := h.flag.mpr hne
      rw [hd] at this
      cases this
    simp only [step]
    by_cases hg : (!p.spotifyAuthorized || !sessionTruthy p.sessionId) = true
    · have e1 : transferPlaylist p =
          showMessage (.str "Сначала необходимо авторизоваться в Spotify") .error p := by
        unfold transferPlaylist
        rw [if_pos hg]
      rw [e1]
      exact sound_of h rfl Iff.rfl h.single rfl rfl
    · by_cases ht : (jsTrim p.tokenValue == "") = true
      · have e2 : transferPlaylist p =
            { showMessage (.str "Пожалуйста, вставьте токен Яндекс Музыки") .error p with
              tokenFocused := true } := by
          unfold transferPlaylist
          rw [if_neg hg]
          simp only [ht, if_true]
        rw [e2]
        exact sound_of h rfl Iff.rfl h.single rfl rfl
      · have hauth : p.spotifyAuthorized = true := by
          cases ha : p.spotifyAuthorized with
          | true => rfl
          | false => simp [ha] at hg
        have hsid : sessionTruthy p.sessionId = true := by
          cases hs : sessionTruthy p.sessionId with
          | true => rfl
          | false => simp [hs] at hg
        have htok : jsTrim p.tokenValue ≠ "" := by simpa using ht
        rw [transferPlaylist_submit p hauth hsid htok]
        have hg0 := h.grown
        constructor
        · simp
        · simp [hnil]
        · simp only [List.length_append, List.length_singleton]
          omega
        · intro _
          simp only [List.length_append, List.length_singleton]
          omega
        · intro hp
          simp at hp
  | fetchSettled id outcome =>
    simp only [step]
    split
    · rename_i hl
      have hp := lookup_single p.pending id _ h.single hl
      have hb := h.busy (by rw [hp]; simp)
      cases outcome with
      | error message =>
        obtain ⟨h1, h2, h3, h4⟩ := catchBlock_done message (dropRun id p)
        apply sound_done
        · simpa [afterFetch] using h1
        · simp only [afterFetch]
          rw [h3]
          exact dropRun_single id _ p hp
        · simpa [afterFetch] using h2
        · simp only [afterFetch]
          rw [h4]
          exact h.grown
      | ok r =>
        by_cases hok : r.ok = true
        · have e1 : afterFetch id (.ok r) p =
              setPhase id (Phase.awaitBody r) (updateProgress 50 "Поиск треков в Spotify..." p) := by
            simp [afterFetch, hok]
          rw [e1]
          refine sound_of h rfl ?_ ?_ rfl rfl
          · simp [setPhase, updateProgress]
          · simp [setPhase, updateProgress]
            exact h.single
        · have e1 : afterFetch id (.ok r) p = setPhase id (Phase.awaitErrorBody r) p := by
            simp [afterFetch, hok]
          rw [e1]
          refine sound_of h rfl ?_ ?_ rfl rfl
          · simp [setPhase]
          · simp [setPhase]
            exact h.single
    · exact h
  | bodySettled id =>
    simp only [step]
    split
    · rename_i r hl
      have hp := lookup_single p.pending id _ h.single hl
      obtain ⟨h1, h2, h3, h4⟩ := afterErrorBody_done rt id r p
      apply sound_done h1 _ h2
      · rw [h4]
        exact h.grown
      · rw [h3]
        exact dropRun_single id _ p hp
    · rename_i r hl
      have hp := lookup_single p.pending id _ h.single hl
      obtain ⟨h1, h2, h3, h4⟩ := afterBody_done rt id r p
      apply sound_done h1 _ h2
      · rw [h4]
        exact h.grown
      · rw [h3]
        exact dropRun_single id _ p hp
    · exact h

theorem sound_run (rt : Runtime) (p0 : Page) (events : List Event) (p : Page)
    (h : Sound p0 p) (hcalls : callsEnabled rt p events = true) :
    Sound p0 (run rt p events) := by
  induction events generalizing p with
  | nil => exact h
  | cons e rest ih =>
    simp only [callsEnabled, Bool.and_eq_true, Bool.or_eq_true, Bool.not_eq_true'] at hcalls
    obtain ⟨hc, hrest⟩ := hcalls
    have hstep : Sound p0 (step rt p e) := by
      apply sound_step rt p0 p e h
      intro hi
      rcases hc with hc | hc
      · rw [hi] at hc
        cases hc
      · exact hc
    exact ih (step rt p e) hstep hrest

theorem callsEnabled_take (rt : Runtime) (p : Page) (events : List Event) (k : Nat)
    (h : callsEnabled rt p events = true) : callsEnabled rt p (events.take k) = true := by
  induction events generalizing p k with
  | nil => simp [callsEnabled]
  | cons e rest ih =>
    cases k with
    | zero => simp [callsEnabled]
    | succ k =>
      simp only [callsEnabled, Bool.and_eq_true] at h
      simp only [List.take_succ_cons, callsEnabled, Bool.and_eq_true]
      exact ⟨h.1, ih _ k h.2⟩

theorem transferPlaylist_blocked_or_submit (p : Page) :
    ((transferPlaylist p).pending = p.pending ∧
        (transferPlaylist p).btnDisabled = p.btnDisabled) ∨
      (p.spotifyAuthorized = true ∧ sessionTruthy p.sessionId = true ∧
        jsTrim p.tokenValue ≠ "") := by
  by_cases hg : (!p.spotifyAuthorized || !sessionTruthy p.sessionId) = true
  · left
    unfold transferPlaylist
    rw [if_pos hg]
    exact ⟨rfl, rfl⟩
  · by_cases ht : (jsTrim p.tokenValue == "") = true
    · left
      unfold transferPlaylist
      rw [if_neg hg]
      simp only [ht, if_true]
      exact ⟨rfl, rfl⟩
    · right
      refine ⟨?_, ?_, by simpa using ht⟩
      · cases ha : p.spotifyAuthorized with
        | true => rfl
        | false => simp [ha] at hg
      · cases hs : sessionTruthy p.sessionId with
        | true => rfl
        | false => simp [hs] at hg

theorem transferWith_settled (rt : Runtime) (p : Page) (outcome : Except String Response)
    (hflag : p.btnDisabled = false) (hidle : p.pending = []) :
    (transferWith rt outcome p).btnDisabled = false ∧
      (transferWith rt outcome p).pending = [] := by
  rcases transferPlaylist_blocked_or_submit p with ⟨hp, hd⟩ | ⟨hauth, hsid, htok⟩
  · rw [hidle] at hp
    rw [hflag] at hd
    simp [transferWith, run, step, hp, hd]
  · cases outcome with
    | error message =>
      simp only [transferWith, run, List.foldl, step]
      rw [transferPlaylist_submit p hauth hsid htok]
      simp [hidle, afterFetch, dropRun, catchBlock, finallyBlock, showMessage, setTimeout,
        updateProgress]
    | ok r =>
      by_cases hok : r.ok = true
      · rw [transferWith_response rt p r hauth hsid htok hidle hok]
        obtain ⟨h1, _, h3, _⟩ := afterBody_done rt p.requests.length r
          { transferPlaylist p with
            progressWidth := "50%"
            progressText := "Поиск треков в Spotify..."
            pending := [(p.requests.length, Phase.awaitBody r)] }
        refine ⟨h1, ?_⟩
        rw [h3]
        exact dropRun_single _ _ _ rfl
      · have hok' : r.ok = false := by simpa using hok
        rw [transferWith_httpError rt p r hauth hsid htok hidle hok']
        exact ⟨rfl, rfl⟩

/-- C6 (as stated, refuted): after two calls of `transferPlaylist` in a row the
first request fails; its `finally` block enables the submit control while the
second request is still pending. -/
theorem doubleCall_enabled_while_pending :
    (run sampleRuntime ready doubleCall).btnDisabled = false ∧
      (run sampleRuntime ready doubleCall).pending.map Prod.fst = [1] ∧
      (run sampleRuntime ready doubleCall).requests.length = 2 := by
  decide

/-- C6 (amended): in every run in which `transferPlaylist` is called only while
the submit control is enabled, started from a page with the control enabled
and nothing pending, at every point of the run the control is disabled
exactly while a transfer is pending, and once a request has been issued and
none is pending its label is 'Перенести плейлист'; and a single transfer
leaves the control enabled with nothing pending whatever the outcome. -/
theorem disabled_iff_pending (rt : Runtime) (p0 : Page) (events : List Event)
    (hflag : p0.btnDisabled = false) (hidle : p0.pending = [])
    (hcalls : callsEnabled rt p0 events = true) :
    (∀ k,
        ((run rt p0 (events.take k)).btnDisabled = true ↔
          (run rt p0 (events.take k)).pending ≠ []) ∧
        ((run rt p0 (events.take k)).pending = [] →
          p0.requests.length < (run rt p0 (events.take k)).requests.length →
          (run rt p0 (events.take k)).btnText = "Перенести плейлист")) ∧
      (∀ outcome,
        (transferWith rt outcome p0).btnDisabled = false ∧
        (transferWith rt outcome p0).pending = []) := by
  have h0 : Sound p0 p0 :=
    ⟨by simp [hflag, hidle], by simp [hidle], le_refl _, fun hne => absurd hidle hne,
      fun _ hlt => absurd hlt (lt_irrefl _)⟩
  refine ⟨fun k => ?_, fun outcome => ?_⟩
  · have hs := sound_run rt p0 (events.take k) p0 h0 (callsEnabled_take rt p0 events k hcalls)
    exact ⟨hs.flag, hs.label⟩
  · exact transferWith_settled rt p0 outcome hflag hidle

theorem disabled_iff_pending_witness :
    callsEnabled sampleRuntime ready
        [.invoke, .elapse 100, .fetchSettled 0 (.ok ⟨200, .ok sampleBody⟩)] = true ∧
      (run sampleRuntime ready
          ([Event.invoke, .elapse 100, .fetchSettled 0 (.ok ⟨200, .ok sampleBody⟩)].take 2)
        ).btnDisabled = true ∧
      (transferWith sampleRuntime (.error "Failed to fetch") ready).btnDisabled = false :=
  have h := disabled_iff_pending sampleRuntime ready
    [.invoke, .elapse 100, .fetchSettled 0 (.ok ⟨200, .ok sampleBody⟩)] rfl rfl (by decide)
  ⟨by decide, ((h.1 2).1).mpr (fun hnil => absurd (congrArg List.length hnil) (by decide)), (h.2 (.error "Failed to fetch")).1⟩

end TYS
